import Mathlib

/-!
Shallow embedding of the replicated-stack core of the realtime-canvas
client (src/canvas.ts, src/realtime.ts, src/main.ts).

`CanvasState` holds the two operation stacks of `CollaborativeCanvas`
(`operations`, `undoneOperations`).  Stack transitions are embedded as
pure functions; ambient effects are made explicit parameters:
`Date.now()` becomes a `now : Nat` argument, the Supabase query result
becomes an `Except` value, and outbound network traffic (broadcast
message, database insert) becomes returned data.  TypeScript string
unions (`operation_type`, `tool`, message `type`) are embedded as
`String`, matching their runtime representation.
-/

structure DrawingPoint where
  x : Int
  y : Int
deriving DecidableEq

structure DrawingPath where
  points : List DrawingPoint
  color : String
  width : Nat
  tool : String
deriving DecidableEq

structure DrawingOperation where
  id : String
  type : String
  path : Option DrawingPath
  timestamp : Nat
  userId : String
deriving DecidableEq

structure RealtimeMessage where
  type : String
  userId : String
  username : Option String := none
  color : Option String := none
  path : Option DrawingPath := none
  operationId : Option String := none
  cursorX : Option Int := none
  cursorY : Option Int := none
  operationIndex : Option Nat := none
deriving DecidableEq

/-- The two stacks of `CollaborativeCanvas` (src/main.ts):
`operations` (the active sequence) and `undoneOperations` (the redo stack). -/
structure CanvasState where
  operations : List DrawingOperation
  undoneOperations : List DrawingOperation
deriving DecidableEq

/-- A row of the `drawing_operations` table, as read back by
`loadOperations`; `data` is flattened into its two fields. -/
structure DbRow where
  id : String
  room_id : String
  user_id : String
  operation_type : String
  operation_index : Nat
  data_path : Option DrawingPath
  data_operationId : Option String
  created_at : Nat
deriving DecidableEq

/-- An error value returned by a Supabase query. -/
structure DbError where
  message : String
deriving DecidableEq

/-- The row `saveOperation` inserts into `drawing_operations`. -/
structure DbInsert where
  room_id : String
  user_id : String
  operation_type : String
  operation_index : Nat
  data_path : Option DrawingPath
  data_operationId : Option String
deriving DecidableEq

/-- The per-replica fields of `RealtimeSync` (src/realtime.ts) that the
send/save paths read: identity, room, and the local `operationIndex`
counter. -/
structure RealtimeSyncState where
  roomId : String
  userId : String
  username : String
  userColor : String
  operationIndex : Nat
deriving DecidableEq

/-- What one `send*` call emits: the broadcast payload, the database
insert performed by `saveOperation`, and the updated sync state. -/
structure SendResult where
  message : RealtimeMessage
  insert : DbInsert
  state : RealtimeSyncState
deriving DecidableEq

namespace RealtimeSync

/-- `RealtimeSync.saveOperation`: builds the `drawing_operations` insert
from the current (already incremented) `operationIndex`. -/
def saveOperation (self : RealtimeSyncState) (type : String)
    (path : Option DrawingPath) (operationId : Option String) : DbInsert :=
  { room_id := self.roomId
    user_id := self.userId
    operation_type := type
    operation_index := self.operationIndex
    data_path := path
    data_operationId := operationId }

/-- `RealtimeSync.sendDrawing`: the broadcast message takes the counter
before the post-increment; `saveOperation` then runs on the incremented
counter. -/
def sendDrawing (self : RealtimeSyncState) (path : DrawingPath) : SendResult :=
  let message : RealtimeMessage :=
    { type := "draw"
      userId := self.userId
      username := some self.username
      color := some self.userColor
      path := some path
      operationIndex := some self.operationIndex }
  let self1 := { self with operationIndex := self.operationIndex + 1 }
  { message := message
    insert := saveOperation self1 "draw" (some path) none
    state := self1 }

/-- `RealtimeSync.sendUndo`. -/
def sendUndo (self : RealtimeSyncState) (operationId : String) : SendResult :=
  let message : RealtimeMessage :=
    { type := "undo"
      userId := self.userId
      operationId := some operationId
      operationIndex := some self.operationIndex }
  let self1 := { self with operationIndex := self.operationIndex + 1 }
  { message := message
    insert := saveOperation self1 "undo" none (some operationId)
    state := self1 }

/-- `RealtimeSync.sendRedo`. -/
def sendRedo (self : RealtimeSyncState) (operationId : String) : SendResult :=
  let message : RealtimeMessage :=
    { type := "redo"
      userId := self.userId
      operationId := some operationId
      operationIndex := some self.operationIndex }
  let self1 := { self with operationIndex := self.operationIndex + 1 }
  { message := message
    insert := saveOperation self1 "redo" none (some operationId)
    state := self1 }

/-- `RealtimeSync.sendClear`. -/
def sendClear (self : RealtimeSyncState) : SendResult :=
  let message : RealtimeMessage :=
    { type := "clear"
      userId := self.userId
      operationIndex := some self.operationIndex }
  let self1 := { self with operationIndex := self.operationIndex + 1 }
  { message := message
    insert := saveOperation self1 "clear" none none
    state := self1 }

/-- The row-to-operation mapping inside `loadOperations`
(`new Date(op.created_at).getTime()` is the stored epoch value). -/
def rowToOperation (op : DbRow) : DrawingOperation :=
  { id := op.id
    type := op.operation_type
    path := op.data_path
    timestamp := op.created_at
    userId := op.user_id }

/-- `RealtimeSync.loadOperations`: the query result (already filtered by
room and ordered by ascending `operation_index` by the database) is
mapped row-by-row; a query error is logged and an empty list returned. -/
def loadOperations (fetch : Except DbError (List DbRow)) : List DrawingOperation :=
  match fetch with
  | .error _ => []
  | .ok data => data.map rowToOperation

end RealtimeSync

/-- Connection status shown by `connectToRoom` (src/main.ts): either the
connected state or the catch branch's connection-error state. -/
inductive ConnStatus
  | connected
  | connectionError
deriving DecidableEq

namespace CollaborativeCanvas

/-- The `mouseup`/`mouseleave` commit in `setupEventListeners`
(src/main.ts): when `stopDrawing` returned an operation with a path, it
is pushed onto `operations` and `undoneOperations` is reset to `[]`. -/
def mouseupCommit (s : CanvasState) (operation : Option DrawingOperation) : CanvasState :=
  match operation with
  | some op =>
      if op.path.isSome then
        { operations := s.operations ++ [op], undoneOperations := [] }
      else s
  | none => s

/-- `CollaborativeCanvas.undo`: pop the tail of `operations`, push it on
`undoneOperations`, and (second component) the operation id passed to
`realtime.sendUndo`; canvas redraw is a rendering effect. -/
def undo (s : CanvasState) : CanvasState × Option String :=
  if s.operations.length = 0 then (s, none)
  else
    match s.operations.getLast? with
    | some operation =>
        ({ operations := s.operations.dropLast
           undoneOperations := s.undoneOperations ++ [operation] },
         some operation.id)
    | none => ({ s with operations := s.operations.dropLast }, none)

/-- `CollaborativeCanvas.redo`: pop the tail of `undoneOperations`, push
it back on `operations`, and pass its id to `realtime.sendRedo`. -/
def redo (s : CanvasState) : CanvasState × Option String :=
  if s.undoneOperations.length = 0 then (s, none)
  else
    match s.undoneOperations.getLast? with
    | some operation =>
        ({ operations := s.operations ++ [operation]
           undoneOperations := s.undoneOperations.dropLast },
         some operation.id)
    | none => ({ s with undoneOperations := s.undoneOperations.dropLast }, none)

/-- `CollaborativeCanvas.handleRemoteUndo`: same stack move as `undo`,
with no broadcast and no use of the inbound message's fields. -/
def handleRemoteUndo (s : CanvasState) : CanvasState :=
  if s.operations.length = 0 then s
  else
    match s.operations.getLast? with
    | some operation =>
        { operations := s.operations.dropLast
          undoneOperations := s.undoneOperations ++ [operation] }
    | none => { s with operations := s.operations.dropLast }

/-- `CollaborativeCanvas.handleRemoteRedo`. -/
def handleRemoteRedo (s : CanvasState) : CanvasState :=
  if s.undoneOperations.length = 0 then s
  else
    match s.undoneOperations.getLast? with
    | some operation =>
        { operations := s.operations ++ [operation]
          undoneOperations := s.undoneOperations.dropLast }
    | none => { s with undoneOperations := s.undoneOperations.dropLast }

/-- `CollaborativeCanvas.clear`: empties both stacks (the canvas wipe is
a rendering effect and `realtime.sendClear` a network effect, modelled by
`RealtimeSync.sendClear`). -/
def clear (_s : CanvasState) : CanvasState :=
  { operations := [], undoneOperations := [] }

/-- The `DrawingOperation` literal built in the `draw` case of
`handleRealtimeMessage`: a fresh id from the sender's userId and
`Date.now()`, kind derived from the path's tool. -/
def remoteDrawOperation (message : RealtimeMessage) (now : Nat) (path : DrawingPath) :
    DrawingOperation :=
  { id := message.userId ++ "-" ++ toString now
    type := if path.tool = "eraser" then "erase" else "draw"
    path := some path
    timestamp := now
    userId := message.userId }

/-- `CollaborativeCanvas.handleRealtimeMessage`, restricted to its effect
on the two stacks; `cursor`, `user_joined` and `user_left` touch only the
user manager and leave both stacks alone.  `Date.now()` is the `now`
argument. -/
def handleRealtimeMessage (s : CanvasState) (message : RealtimeMessage) (now : Nat) :
    CanvasState :=
  if message.type = "draw" then
    match message.path with
    | some path =>
        { s with operations := s.operations ++ [remoteDrawOperation message now path] }
    | none => s
  else if message.type = "undo" then handleRemoteUndo s
  else if message.type = "redo" then handleRemoteRedo s
  else if message.type = "clear" then { operations := [], undoneOperations := [] }
  else s

/-- `CollaborativeCanvas.connectToRoom`: `getOrCreateRoom`, then
`loadOperations` (whose result overwrites `operations`), then `connect`;
a throw from room creation or channel connection lands in the catch
branch (`connectionError`), everything else ends `connected`. -/
def connectToRoom (s : CanvasState)
    (roomResult : Except DbError Unit)
    (fetch : Except DbError (List DbRow))
    (subscribeResult : Except DbError Unit) : CanvasState × ConnStatus :=
  match roomResult with
  | .error _ => (s, .connectionError)
  | .ok _ =>
      let savedOperations := RealtimeSync.loadOperations fetch
      let s1 := { s with operations := savedOperations }
      match subscribeResult with
      | .error _ => (s1, .connectionError)
      | .ok _ => (s1, .connected)

end CollaborativeCanvas

namespace RealtimeSync

/-- The broadcast handler installed by `RealtimeSync.connect`
(src/realtime.ts): the payload reaches the registered callback
(`handleRealtimeMessage`) only when a callback is set and the payload's
`userId` differs from this replica's own; the second component records
whether the callback fired. -/
def onBroadcastDrawing (callbackSet : Bool) (self : RealtimeSyncState)
    (s : CanvasState) (payload : RealtimeMessage) (now : Nat) : CanvasState × Bool :=
  if callbackSet ∧ payload.userId ≠ self.userId then
    (CollaborativeCanvas.handleRealtimeMessage s payload now, true)
  else (s, false)

end RealtimeSync

/-- Modelled from the spec (not the code), for the refinement check of
the join path: the §4.3 fold rule.  `draw`/`erase` append to `active`
and clear `undone`; `clear` empties both; `undo` moves the tail of
`active` onto `undone`; `redo` moves the tail of `undone` back; anything
else is ignored. -/
def specFoldStep (st : CanvasState) (op : DrawingOperation) : CanvasState :=
  if op.type = "draw" ∨ op.type = "erase" then
    { operations := st.operations ++ [op], undoneOperations := [] }
  else if op.type = "clear" then
    { operations := [], undoneOperations := [] }
  else if op.type = "undo" then
    match st.operations.getLast? with
    | some x =>
        { operations := st.operations.dropLast
          undoneOperations := st.undoneOperations ++ [x] }
    | none => st
  else if op.type = "redo" then
    match st.undoneOperations.getLast? with
    | some x =>
        { operations := st.operations ++ [x]
          undoneOperations := st.undoneOperations.dropLast }
    | none => st
  else st

/-- Modelled from the spec: replaying a whole history with the §4.3 fold
rule, starting from the empty replica state. -/
def specJoinFold (records : List DrawingOperation) : CanvasState :=
  records.foldl specFoldStep { operations := [], undoneOperations := [] }

/-- Combined contents of the two stacks, as a multiset. -/
def stackContents (s : CanvasState) : Multiset DrawingOperation :=
  (s.operations : Multiset DrawingOperation) + (s.undoneOperations : Multiset DrawingOperation)

/-- Sample path used by concrete witnesses. -/
def samplePath : DrawingPath :=
  { points := [{ x := 1, y := 2 }, { x := 3, y := 4 }]
    color := "#000000"
    width := 2
    tool := "brush" }

/-- Sample operation used by concrete witnesses. -/
def sampleOp : DrawingOperation :=
  { id := "op-a"
    type := "draw"
    path := some samplePath
    timestamp := 100
    userId := "alice" }

/-- Sample inbound draw broadcast used by concrete witnesses. -/
def sampleDrawMessage : RealtimeMessage :=
  { type := "draw", userId := "bob", path := some samplePath }

/-- Sample stored `draw` row. -/
def sampleRowDraw : DbRow :=
  { id := "r1", room_id := "rm", user_id := "alice", operation_type := "draw"
    operation_index := 1, data_path := some samplePath
    data_operationId := none, created_at := 10 }

/-- Sample stored `undo` row. -/
def sampleRowUndo : DbRow :=
  { id := "r2", room_id := "rm", user_id := "alice", operation_type := "undo"
    operation_index := 2, data_path := none
    data_operationId := some "r1", created_at := 11 }

/-! ### Helper lemmas on the stack transitions -/

lemma undo_fst (s : CanvasState) :
    (CollaborativeCanvas.undo s).1 = CollaborativeCanvas.handleRemoteUndo s := by
  unfold CollaborativeCanvas.undo CollaborativeCanvas.handleRemoteUndo
  split
  · rfl
  · split <;> rfl

lemma redo_fst (s : CanvasState) :
    (CollaborativeCanvas.redo s).1 = CollaborativeCanvas.handleRemoteRedo s := by
  unfold CollaborativeCanvas.redo CollaborativeCanvas.handleRemoteRedo
  split
  · rfl
  · split <;> rfl

lemma handleRemoteUndo_concat (l und : List DrawingOperation) (a : DrawingOperation) :
    CollaborativeCanvas.handleRemoteUndo ⟨l ++ [a], und⟩ = ⟨l, und ++ [a]⟩ := by
  simp [CollaborativeCanvas.handleRemoteUndo, List.getLast?_concat]

lemma handleRemoteRedo_concat (ops u : List DrawingOperation) (a : DrawingOperation) :
    CollaborativeCanvas.handleRemoteRedo ⟨ops, u ++ [a]⟩ = ⟨ops ++ [a], u⟩ := by
  simp [CollaborativeCanvas.handleRemoteRedo, List.getLast?_concat]

lemma handleRemoteUndo_eq (s : CanvasState) :
    CollaborativeCanvas.handleRemoteUndo s =
      (match s.operations.getLast? with
       | some op => ⟨s.operations.dropLast, s.undoneOperations ++ [op]⟩
       | none => s) := by
  rcases s with ⟨ops, und⟩
  rcases List.eq_nil_or_concat ops with rfl | ⟨l, a, rfl⟩
  · rfl
  · simp only [List.concat_eq_append]
    rw [handleRemoteUndo_concat]
    simp [List.getLast?_concat]

lemma handleRemoteRedo_eq (s : CanvasState) :
    CollaborativeCanvas.handleRemoteRedo s =
      (match s.undoneOperations.getLast? with
       | some op => ⟨s.operations ++ [op], s.undoneOperations.dropLast⟩
       | none => s) := by
  rcases s with ⟨ops, und⟩
  rcases List.eq_nil_or_concat und with rfl | ⟨l, a, rfl⟩
  · rfl
  · simp only [List.concat_eq_append]
    rw [handleRemoteRedo_concat]
    simp [List.getLast?_concat]

lemma stackContents_handleRemoteUndo (s : CanvasState) :
    stackContents (CollaborativeCanvas.handleRemoteUndo s) = stackContents s := by
  rcases s with ⟨ops, und⟩
  rcases List.eq_nil_or_concat ops with rfl | ⟨l, a, rfl⟩
  · rfl
  · simp only [List.concat_eq_append]
    rw [handleRemoteUndo_concat]
    simp only [stackContents, Multiset.coe_add]
    exact Multiset.coe_eq_coe.mpr
      (by simpa [List.append_assoc] using (@List.perm_append_comm _ und [a]).append_left l)

lemma stackContents_handleRemoteRedo (s : CanvasState) :
    stackContents (CollaborativeCanvas.handleRemoteRedo s) = stackContents s := by
  rcases s with ⟨ops, und⟩
  rcases List.eq_nil_or_concat und with rfl | ⟨l, a, rfl⟩
  · rfl
  · simp only [List.concat_eq_append]
    rw [handleRemoteRedo_concat]
    simp only [stackContents, Multiset.coe_add]
    exact Multiset.coe_eq_coe.mpr
      (by simpa [List.append_assoc] using (@List.perm_append_comm _ [a] l).append_left ops)

/-! ### Claim theorems -/

/-- Claim C1, counterexample: join does not fold the history with the
spec's §4.3 rule.  On a log holding a `draw` row followed by an `undo`
row, `loadOperations` returns both rows verbatim as a two-element active
sequence, while the §4.3 fold would leave the active sequence empty. -/
theorem C1_counterexample :
    RealtimeSync.loadOperations (Except.ok [sampleRowDraw, sampleRowUndo]) ≠
      (specJoinFold ([sampleRowDraw, sampleRowUndo].map RealtimeSync.rowToOperation)).operations := by
  decide

/-- Claim C1, amended: join fetches the history in ascending
`operation_index` order and maps every stored record one-for-one into
the active sequence, without interpreting `undo`/`redo`/`clear` rows;
consequently two replicas joining against the same log content obtain
identical active sequences regardless of their prior states, the common
value being the row-by-row image of the log. -/
theorem C1_join_is_deterministic_row_map (s1 s2 : CanvasState)
    (fetch : Except DbError (List DbRow)) (rows : List DbRow) :
    ((CollaborativeCanvas.connectToRoom s1 (Except.ok ()) fetch (Except.ok ())).1.operations =
      (CollaborativeCanvas.connectToRoom s2 (Except.ok ()) fetch (Except.ok ())).1.operations) ∧
    ((CollaborativeCanvas.connectToRoom s1 (Except.ok ()) (Except.ok rows) (Except.ok ())).1.operations =
      rows.map RealtimeSync.rowToOperation) :=
  ⟨rfl, rfl⟩

/-- Claim C2 (code bug): a remote `draw` broadcast does NOT clear the
redo stack.  Evaluating the code at the failing input: a replica holding
`undoneOperations = [sampleOp]` that receives a remote draw message
keeps `undoneOperations = [sampleOp]`, which is nonempty — contradicting
the claim and the repository's own architecture documentation. -/
theorem C2_remote_draw_keeps_undone_stack :
    (CollaborativeCanvas.handleRealtimeMessage ⟨[], [sampleOp]⟩ sampleDrawMessage 5).undoneOperations =
      [sampleOp] ∧ ([sampleOp] : List DrawingOperation) ≠ [] := by
  decide

/-- Claim C3, counterexample: the replica keeps no `seen` set, so
re-applying the very same inbound draw record (same sender, same
`Date.now()`, hence the identical generated id) is not a no-op: the
state after two applications differs from the state after one. -/
theorem C3_counterexample :
    CollaborativeCanvas.handleRealtimeMessage
        (CollaborativeCanvas.handleRealtimeMessage ⟨[], []⟩ sampleDrawMessage 7)
        sampleDrawMessage 7 ≠
      CollaborativeCanvas.handleRealtimeMessage ⟨[], []⟩ sampleDrawMessage 7 := by
  decide

/-- Claim C3, amended: applying an inbound draw record a second time
appends the operation to the active sequence again (the replica tracks
no seen ids), leaving the redo stack exactly as after the first
application. -/
theorem C3_reapplied_draw_appends_again (s : CanvasState) (m : RealtimeMessage)
    (now : Nat) (p : DrawingPath) (h1 : m.type = "draw") (h2 : m.path = some p) :
    CollaborativeCanvas.handleRealtimeMessage
        (CollaborativeCanvas.handleRealtimeMessage s m now) m now =
      { operations := (CollaborativeCanvas.handleRealtimeMessage s m now).operations ++
          [CollaborativeCanvas.remoteDrawOperation m now p]
        undoneOperations := (CollaborativeCanvas.handleRealtimeMessage s m now).undoneOperations } := by
  simp [CollaborativeCanvas.handleRealtimeMessage, h1, h2]

/-- Witness for the amended C3 theorem at a concrete replica state and
message. -/
theorem C3_reapplied_draw_appends_again_witness :
    sampleDrawMessage.type = "draw" ∧ sampleDrawMessage.path = some samplePath ∧
    CollaborativeCanvas.handleRealtimeMessage
        (CollaborativeCanvas.handleRealtimeMessage ⟨[], []⟩ sampleDrawMessage 7)
        sampleDrawMessage 7 =
      { operations := (CollaborativeCanvas.handleRealtimeMessage ⟨[], []⟩ sampleDrawMessage 7).operations ++
          [CollaborativeCanvas.remoteDrawOperation sampleDrawMessage 7 samplePath]
        undoneOperations :=
          (CollaborativeCanvas.handleRealtimeMessage ⟨[], []⟩ sampleDrawMessage 7).undoneOperations } :=
  ⟨rfl, rfl, C3_reapplied_draw_appends_again ⟨[], []⟩ sampleDrawMessage 7 samplePath rfl rfl⟩

/-- Claim C4: on a replica with nonempty active sequence, a local undo
immediately followed by a local redo restores both `operations` and
`undoneOperations` to their pre-undo values. -/
theorem C4_undo_then_redo_restores (s : CanvasState) (h : s.operations ≠ []) :
    ((CollaborativeCanvas.redo (CollaborativeCanvas.undo s).1).1.operations = s.operations) ∧
    ((CollaborativeCanvas.redo (CollaborativeCanvas.undo s).1).1.undoneOperations = s.undoneOperations) := by
  rcases s with ⟨ops, und⟩
  rcases List.eq_nil_or_concat ops with rfl | ⟨l, a, rfl⟩
  · exact absurd rfl h
  · simp only [List.concat_eq_append]
    rw [undo_fst, handleRemoteUndo_concat, redo_fst, handleRemoteRedo_concat]
    exact ⟨rfl, rfl⟩

/-- Witness for C4 at a one-element active sequence. -/
theorem C4_undo_then_redo_restores_witness :
    (CanvasState.mk [sampleOp] []).operations ≠ [] ∧
    ((CollaborativeCanvas.redo (CollaborativeCanvas.undo ⟨[sampleOp], []⟩).1).1.operations = [sampleOp] ∧
      (CollaborativeCanvas.redo (CollaborativeCanvas.undo ⟨[sampleOp], []⟩).1).1.undoneOperations = []) :=
  ⟨by decide, C4_undo_then_redo_restores ⟨[sampleOp], []⟩ (by decide)⟩

/-- Claim C5: a clear — local (`clear`) or remote (the `clear` case of
`handleRealtimeMessage`) — unconditionally empties both stacks, and any
redo attempted immediately afterwards (local `redo` or
`handleRemoteRedo`) is a no-op. -/
theorem C5_clear_empties_both_stacks (s : CanvasState) (u : String) (now : Nat) :
    (CollaborativeCanvas.clear s).operations = [] ∧
    (CollaborativeCanvas.clear s).undoneOperations = [] ∧
    CollaborativeCanvas.handleRealtimeMessage s { type := "clear", userId := u } now =
      { operations := [], undoneOperations := [] } ∧
    (CollaborativeCanvas.redo (CollaborativeCanvas.clear s)).1 = CollaborativeCanvas.clear s ∧
    CollaborativeCanvas.handleRemoteRedo (CollaborativeCanvas.clear s) = CollaborativeCanvas.clear s :=
  ⟨rfl, rfl, rfl, rfl, rfl⟩

/-- Claim C6, counterexample: the broadcast payload built by
`sendDrawing` does carry a sequence number — the replica-local counter —
so the order key is not absent from the wire; moreover the database row
receives the client-supplied incremented counter, not a log-assigned
value. -/
theorem C6_counterexample :
    (RealtimeSync.sendDrawing ⟨"rm", "alice", "Al", "#ff0000", 0⟩ samplePath).message.operationIndex ≠
      none ∧
    (RealtimeSync.sendDrawing ⟨"rm", "alice", "Al", "#ff0000", 0⟩ samplePath).message.operationIndex =
      some 0 ∧
    (RealtimeSync.sendDrawing ⟨"rm", "alice", "Al", "#ff0000", 0⟩ samplePath).insert.operation_index =
      1 := by
  decide

/-- Claim C6, amended: every operation message put on the wire carries
`operationIndex`, the sending replica's local counter (its pre-increment
value), and the durable insert carries the post-increment value — the
order key is assigned by the client, not by the durable log. -/
theorem C6_wire_carries_client_counter (self : RealtimeSyncState)
    (path : DrawingPath) (operationId : String) :
    ((RealtimeSync.sendDrawing self path).message.operationIndex = some self.operationIndex ∧
      (RealtimeSync.sendDrawing self path).insert.operation_index = self.operationIndex + 1) ∧
    ((RealtimeSync.sendUndo self operationId).message.operationIndex = some self.operationIndex ∧
      (RealtimeSync.sendUndo self operationId).insert.operation_index = self.operationIndex + 1) ∧
    ((RealtimeSync.sendRedo self operationId).message.operationIndex = some self.operationIndex ∧
      (RealtimeSync.sendRedo self operationId).insert.operation_index = self.operationIndex + 1) ∧
    ((RealtimeSync.sendClear self).message.operationIndex = some self.operationIndex ∧
      (RealtimeSync.sendClear self).insert.operation_index = self.operationIndex + 1) :=
  ⟨⟨rfl, rfl⟩, ⟨rfl, rfl⟩, ⟨rfl, rfl⟩, ⟨rfl, rfl⟩⟩

/-- Claim C7: an inbound remote undo (resp. redo) always moves the LOCAL
tail of `operations` (resp. `undoneOperations`) to the other stack; the
`operationId` carried by the message never selects the element — two
messages differing only in their referenced id produce identical
states. -/
theorem C7_remote_undo_redo_act_on_local_tail (s : CanvasState)
    (u i1 i2 : String) (now : Nat) :
    (CollaborativeCanvas.handleRealtimeMessage s
        { type := "undo", userId := u, operationId := some i1 } now =
      CollaborativeCanvas.handleRealtimeMessage s
        { type := "undo", userId := u, operationId := some i2 } now) ∧
    (CollaborativeCanvas.handleRealtimeMessage s
        { type := "undo", userId := u, operationId := some i1 } now =
      (match s.operations.getLast? with
       | some op => ⟨s.operations.dropLast, s.undoneOperations ++ [op]⟩
       | none => s)) ∧
    (CollaborativeCanvas.handleRealtimeMessage s
        { type := "redo", userId := u, operationId := some i1 } now =
      CollaborativeCanvas.handleRealtimeMessage s
        { type := "redo", userId := u, operationId := some i2 } now) ∧
    (CollaborativeCanvas.handleRealtimeMessage s
        { type := "redo", userId := u, operationId := some i1 } now =
      (match s.undoneOperations.getLast? with
       | some op => ⟨s.operations ++ [op], s.undoneOperations.dropLast⟩
       | none => s)) :=
  ⟨rfl, handleRemoteUndo_eq s, rfl, handleRemoteRedo_eq s⟩

/-- Claim C8, counterexample: when the history fetch errors (room lookup
and channel subscription fine), `connectToRoom` completes with an empty
active sequence and status `connected` — it does not surface
`ConnectionError`. -/
theorem C8_counterexample :
    CollaborativeCanvas.connectToRoom ⟨[], []⟩ (Except.ok ())
        (Except.error ⟨"fetch failed"⟩) (Except.ok ()) =
      (⟨[], []⟩, ConnStatus.connected) ∧
    ConnStatus.connected ≠ ConnStatus.connectionError := by
  decide

/-- Claim C8, amended: a failed history fetch is swallowed —
`loadOperations` logs the error and returns `[]`, so join completes with
an empty history and reports `connected`; `ConnectionError` is surfaced
only when room creation or channel connection throws. -/
theorem C8_fetch_error_yields_empty_connected (s : CanvasState) (e : DbError) :
    CollaborativeCanvas.connectToRoom s (Except.ok ()) (Except.error e) (Except.ok ()) =
      ({ s with operations := [] }, ConnStatus.connected) :=
  rfl

/-- Claim C9: an inbound broadcast payload whose `userId` equals the
receiving replica's own `userId` never reaches the message callback and
leaves the replica state unchanged. -/
theorem C9_own_echo_not_applied (callbackSet : Bool) (self : RealtimeSyncState)
    (s : CanvasState) (payload : RealtimeMessage) (now : Nat)
    (h : payload.userId = self.userId) :
    RealtimeSync.onBroadcastDrawing callbackSet self s payload now = (s, false) := by
  simp [RealtimeSync.onBroadcastDrawing, h]

/-- Witness for C9 on a concrete self-echoed payload. -/
theorem C9_own_echo_not_applied_witness :
    ({ type := "draw", userId := "alice", path := some samplePath } : RealtimeMessage).userId =
      (RealtimeSyncState.mk "rm" "alice" "Al" "#ff0000" 0).userId ∧
    RealtimeSync.onBroadcastDrawing true ⟨"rm", "alice", "Al", "#ff0000", 0⟩ ⟨[sampleOp], []⟩
        { type := "draw", userId := "alice", path := some samplePath } 5 =
      (⟨[sampleOp], []⟩, false) :=
  ⟨rfl, C9_own_echo_not_applied true ⟨"rm", "alice", "Al", "#ff0000", 0⟩ ⟨[sampleOp], []⟩
    { type := "draw", userId := "alice", path := some samplePath } 5 rfl⟩

/-- Claim C10: every undo and redo transition — local (`undo`, `redo`)
or remote (`handleRemoteUndo`, `handleRemoteRedo`) — preserves the
combined multiset of operations held across the two stacks. -/
theorem C10_stack_moves_preserve_contents (s : CanvasState) :
    stackContents (CollaborativeCanvas.undo s).1 = stackContents s ∧
    stackContents (CollaborativeCanvas.redo s).1 = stackContents s ∧
    stackContents (CollaborativeCanvas.handleRemoteUndo s) = stackContents s ∧
    stackContents (CollaborativeCanvas.handleRemoteRedo s) = stackContents s := by
  rw [undo_fst, redo_fst]
  exact ⟨stackContents_handleRemoteUndo s, stackContents_handleRemoteRedo s,
    stackContents_handleRemoteUndo s, stackContents_handleRemoteRedo s⟩
